import Mathlib

/-!
Shallow embedding of the BellaLui telemetry/command protocol core:
* `communication/message_bus.cpp` (type-indexed message bus),
* `telemetry/datagram_builder.cpp` (fixed-capacity datagram builder with CRC-16 trailer),
* `telemetry/telemetry_handling.cpp` (per-category rate-limited telemetry senders).

Machine integers are modelled as `Nat` with explicit `% 2^w` where C truncation or
wraparound matters.  Function pointers (message handlers) are modelled as opaque
`Nat` tokens; `receive` returns the list of handler tokens it invokes, in invocation
order.  Headers of the repository (`message_bus.h`, `datagram_builder.h`,
`simpleCRC.h`, `telemetry_protocol.h`) are not part of the provided sources; the
few facts needed from them are modelled from the spec and marked as such.
-/

namespace MessageBusModel

/-- A message handler: in the C++ source a function pointer `void (*)(void*)`.
Modelled as an opaque token; dispatch is observed as the list of invoked tokens. -/
abbrev Handler := Nat

/-- State of `MessageBus` (`message_bus.cpp`).
`identifiers` embeds the `identifiers` container mapping `typeid(T).hash_code()`
to the wire identifier; `register_object` inserts at the front
(`identifiers.insert(identifiers.begin(), ...)`), and lookup returns the first
match.  `safe_cast_reference` embeds the `uint8_t safe_cast_reference[256]`
array (total on all 256 indices).  `handlers` embeds the handler table.

Modelled from the spec: the `iunordered_multimap` container type is declared in
`message_bus.h`, which is not among the provided sources.  Per the spec (§3
HandlerEntry, §4.3 `receive`) dispatch "invokes every handler registered for that
identifier, in registration order", so the handler table is modelled as a list of
(identifier, handler) entries kept in registration order, and dispatch for an
identifier as iteration over exactly the entries carrying that identifier. -/
structure MessageBus where
  identifiers : List (Nat × UInt8)
  safe_cast_reference : UInt8 → UInt8
  handlers : List (UInt8 × Handler)

/-- First entry of `identifiers` whose type-hash matches, as the container's
`find` returns (most recent insertion first, since insertion is at the front). -/
def lookupIdentifier (bus : MessageBus) (type_hash : Nat) : Option UInt8 :=
  (bus.identifiers.find? (fun p => p.1 == type_hash)).map (·.2)

/-- Embeds `MessageBus::register_object<T>(identifier)`: rejects `sizeof(T) > 256`,
otherwise prepends `(hash, identifier)` to `identifiers` and stores
`(uint8_t) sizeof(T)` (truncation mod 256) in `safe_cast_reference`. -/
def register_object (bus : MessageBus) (type_hash : Nat) (size : Nat)
    (identifier : UInt8) : MessageBus :=
  if size > 256 then
    bus
  else
    { bus with
      identifiers := (type_hash, identifier) :: bus.identifiers
      safe_cast_reference := fun i =>
        if i == identifier then UInt8.ofNat size else bus.safe_cast_reference i }

/-- Embeds `MessageBus::register_handler<T>(handler)`: looks up the identifier bound to
`T`'s hash; on a hit records the handler entry, on a miss does nothing.
Modelled from the spec: the source inserts into the `iunordered_multimap` at
`handlers.begin()`; since the container is not in the provided sources and the
spec fixes per-identifier invocation order to registration order (§4.3), the
entry is appended so the list order is registration order. -/
def register_handler (bus : MessageBus) (type_hash : Nat) (handler : Handler) :
    MessageBus :=
  match lookupIdentifier bus type_hash with
  | some id => { bus with handlers := bus.handlers ++ [(id, handler)] }
  | none => bus

/-- Handlers registered for an identifier, in registration order.
Modelled from the spec: embeds the dispatch loop
`for (it = handlers.find(packet_id); it != handlers.end(); it++)` over the
spec's container semantics (§4.3: every handler registered for that identifier,
in registration order). -/
def handlersFor (bus : MessageBus) (id : UInt8) : List Handler :=
  (bus.handlers.filter (fun e => e.1 == id)).map (·.2)

/-- Embeds `MessageBus::receive(pointer, length)`: result is the list of handler tokens
invoked, in invocation order.  Empty buffer: no-op.  Otherwise the first byte is
the packet id; if `length - 1` differs from `safe_cast_reference[packet_id]`
there is no dispatch; on a match every handler registered for the id runs.
The C parameter `length` is `uint8_t`, so only buffers of length ≤ 255 are
representable; theorems carry that bound where it matters. -/
def receive (bus : MessageBus) (buffer : List UInt8) : List Handler :=
  match buffer with
  | [] => []
  | packet_id :: payload =>
    if payload.length == (bus.safe_cast_reference packet_id).toNat then
      handlersFor bus packet_id
    else
      []

/-- Applies a list of registration requests `(type_hash, size, identifier)` in
order, as the init phase does before the bus is locked. -/
def register_objects (bus : MessageBus) (regs : List (Nat × Nat × UInt8)) :
    MessageBus :=
  regs.foldl (fun b r => register_object b r.1 r.2.1 r.2.2) bus

/-- The `(type_hash, identifier)` pairs that a list of registration requests
contributes to the `identifiers` container: rejected requests (size > 256)
contribute nothing; accepted ones are prepended, so the container holds them in
reverse request order. -/
def regPairs (regs : List (Nat × Nat × UInt8)) : List (Nat × UInt8) :=
  ((regs.filter (fun r => !(r.2.1 > 256 : Bool))).map (fun r => (r.1, r.2.2))).reverse

end MessageBusModel

namespace DatagramBuilderModel

/-- Embeds `MALLOC_SIZE` (`datagram_builder.cpp` line 14): every datagram buffer is
allocated with this one size, independent of the declared datagram size. -/
def MALLOC_SIZE : Nat := 64

/-- Modelled from the spec: `HEADER_SIZE` comes from `telemetry_protocol.h`,
which is not among the provided sources.  Spec §6 fixes the header as 1
payload-type byte plus the 4-byte 'E','P','F','L' marker, so 5 bytes. -/
def HEADER_SIZE : Nat := 5

/-- Modelled from the spec: `TOTAL_DATAGRAM_OVERHEAD` comes from
`telemetry_protocol.h` (not in the provided sources).  Spec §6: 5 header bytes
plus the 2-byte CRC trailer, so 7 bytes of overhead. -/
def TOTAL_DATAGRAM_OVERHEAD : Nat := 7

/-- Modelled from the spec (§4.1): the CRC engine (`simpleCRC.h`) is not among
the provided sources.  `CRC_16_GENERATOR_POLY.initialValue`, modelled as the
CRC-16-CCITT initial value. -/
def CRC_INITIAL : Nat := 0xFFFF

/-- One shift step of the CRC-16 remainder computation (polynomial 0x1021),
on 16-bit values carried as `Nat % 65536`. -/
def crcStepBit (c : Nat) : Nat :=
  if c &&& 0x8000 ≠ 0 then ((c <<< 1) ^^^ 0x1021) % 65536 else (c <<< 1) % 65536

/-- Modelled from the spec (§4.1): `CalculateRemainderFromTable(byte, crc)`
folds one byte into the running remainder via the 256-entry table; modelled as
the equivalent eight bitwise steps. -/
def CalculateRemainderFromTable (b : UInt8) (crc : Nat) : Nat :=
  (List.range 8).foldl (fun c _ => crcStepBit c) ((crc ^^^ (b.toNat <<< 8)) % 65536)

/-- Modelled from the spec (§4.1): `FinalizeCRC` finalizes the running
remainder; CRC-16-CCITT applies no final transformation. -/
def FinalizeCRC (c : Nat) : Nat := c

/-- State of `DatagramBuilder` (`datagram_builder.cpp`).  `allocOk` records
whether `pvPortMalloc(MALLOC_SIZE)` succeeded (NULL check at line 20).
`bytes` lists the bytes successfully stored, `bytes[i]` at offset `i` from
`datagramPtr`; the allocation is only `MALLOC_SIZE` bytes, so a stored byte at
offset ≥ `MALLOC_SIZE` is an out-of-bounds write.  `currentIdx` and
`datagramCrc` mirror the members of the same names (`datagramCrc` is left
uninitialized by the C++ constructor on the allocation-failure path; the model
uses 0 there). -/
structure Builder where
  datagramSize : Nat
  allocOk : Bool
  bytes : List UInt8
  currentIdx : Nat
  datagramCrc : Nat
  deriving Repr, DecidableEq

/-- Embeds `DatagramBuilder::write8`: stores the byte at `currentIdx` and advances the
cursor when `currentIdx + 1 <= datagramSize`; otherwise drops the byte. -/
def write8 (b : Builder) (val : UInt8) : Builder :=
  if b.currentIdx + 1 ≤ b.datagramSize then
    { b with bytes := b.bytes ++ [val], currentIdx := b.currentIdx + 1 }
  else
    b

/-- A sequence of `write8` calls. -/
def writeN (b : Builder) (vals : List UInt8) : Builder :=
  vals.foldl write8 b

/-- The `DatagramBuilder` constructor: `datagramSize` is the `uint16_t` member
`datagramPayloadSize + TOTAL_DATAGRAM_OVERHEAD` (hence the `% 65536`).  On
allocation success the cursor starts at 0, the payload-type byte and the
'E','P','F','L' marker are written, and the CRC seed is computed over the
buffer range `[currentIdx - 5, currentIdx)`.  On allocation failure
`currentIdx` is set to `datagramSize` ("prevents from writing anything") and
the constructor returns at once. -/
def mkBuilder (payloadSize : Nat) (datagramType : UInt8) (allocOk : Bool) :
    Builder :=
  let size := (payloadSize + TOTAL_DATAGRAM_OVERHEAD) % 65536
  if allocOk then
    let b0 : Builder := ⟨size, true, [], 0, 0⟩
    let b1 := write8 (write8 (write8 (write8 (write8 b0 datagramType)
      69) 80) 70) 76
    let seed := (b1.bytes.drop (b1.currentIdx - 5)).foldl
      (fun c byte => CalculateRemainderFromTable byte c) CRC_INITIAL
    { b1 with datagramCrc := seed }
  else
    ⟨size, false, [], size, 0⟩

/-- Modelled from the spec: `write16` is declared in `datagram_builder.h` (not
in the provided sources); spec §4.2/§6 appends the two CRC bytes in the
builder's fixed byte order, modelled big-endian. -/
def write16 (b : Builder) (v : Nat) : Builder :=
  write8 (write8 b (UInt8.ofNat (v >>> 8))) (UInt8.ofNat v)

/-- The buffer offsets read by `finalizeDatagram`'s CRC loop
(`for (i = HEADER_SIZE; i < currentIdx; i++)` reading `datagramPtr[i]`).
On the allocation-failure path these reads go through the NULL buffer
pointer. -/
def finalizeReadIndices (b : Builder) : List Nat :=
  List.range' HEADER_SIZE (b.currentIdx - HEADER_SIZE)

/-- Embeds `Telemetry_Message` (the result of `finalizeDatagram`): `ptrValid` models
whether the `ptr` field is the allocated buffer (true) or NULL (false). -/
structure Telemetry_Message where
  ptrValid : Bool
  size : Nat
  deriving Repr, DecidableEq

/-- Embeds `DatagramBuilder::finalizeDatagram`: folds the buffer bytes at
`finalizeReadIndices` into the running CRC (the model reads 0 where the C++
reads unallocated memory), finalizes it, appends it with `write16`, and
returns the message `{ .ptr = datagramPtr, .size = datagramSize }`.  The final
builder state is returned too so theorems can inspect the sealed buffer. -/
def finalizeDatagram (b : Builder) : Telemetry_Message × Builder :=
  let crc := (finalizeReadIndices b).foldl
    (fun c i => CalculateRemainderFromTable (b.bytes.getD i 0) c) b.datagramCrc
  let crc := FinalizeCRC crc
  let b' := write16 { b with datagramCrc := crc } crc
  (⟨b.allocOk, b'.datagramSize⟩, b')

/-- CRC-16 of a byte sequence from the initial value, finalized: the checksum
the spec's wire format (§6) prescribes for bytes `[0, N-2)`. -/
def crcOver (l : List UInt8) : Nat :=
  FinalizeCRC (l.foldl (fun c byte => CalculateRemainderFromTable byte c) CRC_INITIAL)

end DatagramBuilderModel

namespace TelemetryModel

/-- Rate-limit intervals (`telemetry_handling.cpp` lines 25-29). -/
def TELE_TIMEMIN : Nat := 20

def GPS_TIMEMIN : Nat := 100

def MOTOR_TIMEMIN : Nat := 100

def WARNING_TIMEMIN : Nat := 50

def AB_TIMEMIN : Nat := 100

def UINT32_MOD : Nat := 2 ^ 32

/-- Embeds `uint32_t` subtraction `a - b` with wraparound. -/
def sub32 (a b : Nat) : Nat :=
  (a % UINT32_MOD + (UINT32_MOD - b % UINT32_MOD)) % UINT32_MOD

/-- Embeds `IMU_data` (header not in the provided sources): acceleration and Euler
angles, three components each; component values abstracted to `Nat` (the
claims concern scheduling and field placement, not IEEE-754 encodings). -/
structure IMU_data where
  ax : Nat
  ay : Nat
  az : Nat
  ex : Nat
  ey : Nat
  ez : Nat
  deriving Repr, DecidableEq

/-- Embeds `BARO_data` (header not in the provided sources): initialized as `{0,0,0}`;
only `temperature` and `pressure` are serialized. -/
structure BARO_data where
  temperature : Nat
  pressure : Nat
  extra : Nat
  deriving Repr, DecidableEq

/-- Mutable globals and static locals of `telemetry_handling.cpp`:
`Packet_Number`, `telemetrySeqNumber`, the per-category last-send ticks
(`last_update` is the static local of `telemetry_sendGPSData`), and the cached
`imu`/`baro` samples. -/
structure TelemetryState where
  packetNumber : Nat
  telemetrySeqNumber : Nat
  last_gps_update : Nat
  last_sensor_update : Nat
  last_motor_update : Nat
  last_warning_update : Nat
  last_airbrakes_update : Nat
  imu : IMU_data
  baro : BARO_data
  deriving Repr, DecidableEq

/-- Initial values of the globals (`telemetry_handling.cpp` lines 32-55). -/
def initialTelemetryState : TelemetryState :=
  ⟨0, 0, 0, 0, 0, 0, 0, ⟨0, 0, 0, 0, 0, 0⟩, ⟨0, 0, 0⟩⟩

/-- Embeds `createTelemetryDatagram`: payload field values in write order
(`write32` fields abstracted to their numeric values; `can_getSpeed()` and
`can_getAltitude()` are external collaborators passed in as `speed` and
`altitude`).  Returns the field list and the post-increment `Packet_Number`. -/
def createTelemetryDatagram (imu_data : IMU_data) (baro_data : BARO_data)
    (time_stamp _telemetrySeqNumber : Nat) (packetNumber : Nat)
    (speed altitude : Nat) : List Nat × Nat :=
  ([time_stamp, packetNumber, imu_data.ax, imu_data.ay, imu_data.az,
    imu_data.ex, imu_data.ey, imu_data.ez,
    baro_data.temperature, baro_data.pressure, speed, altitude],
   (packetNumber + 1) % UINT32_MOD)

/-- Embeds `createAirbrakesDatagram` (`can_getABangle()` passed in as `abAngle`). -/
def createAirbrakesDatagram (time_stamp _telemetrySeqNumber : Nat)
    (packetNumber : Nat) (abAngle : Nat) : List Nat × Nat :=
  ([time_stamp, packetNumber, abAngle], (packetNumber + 1) % UINT32_MOD)

/-- Embeds `createGPSDatagram`: its first field is `HAL_GetTick()`, modelled as the
tick `now` of the enclosing call. -/
def createGPSDatagram (_seqNumber : Nat) (now : Nat)
    (sats hdop lat lon altitude : Nat) (packetNumber : Nat) : List Nat × Nat :=
  ([now, packetNumber, sats, hdop, lat, lon, altitude],
   (packetNumber + 1) % UINT32_MOD)

/-- Embeds `createMotorPressurePacketDatagram(time_stamp, pressure, seqNumber)`:
fields are `time_stamp`, `Packet_Number++`, `pressure`, in that order. -/
def createMotorPressurePacketDatagram (time_stamp pressure _seqNumber : Nat)
    (packetNumber : Nat) : List Nat × Nat :=
  ([time_stamp, packetNumber, pressure], (packetNumber + 1) % UINT32_MOD)

/-- Embeds `createWarningPacketDatagram`. -/
def createWarningPacketDatagram (time_stamp id value av_state _seqNumber : Nat)
    (packetNumber : Nat) : List Nat × Nat :=
  ([time_stamp, packetNumber, id, value, av_state],
   (packetNumber + 1) % UINT32_MOD)

/-- Observable outcome of one `telemetry_sendXXX` call.  `built` is the payload
field list of the datagram built and finalized, if any; `freeCount` counts the
`vPortFree` calls on that datagram's buffer (the queue outcome `osMessagePut
(..., 10) == osOK` — a bounded 10-tick wait — is abstracted as the input
`queueOk`). -/
structure SendResult where
  state : TelemetryState
  handled : Bool
  built : Option (List Nat)
  freeCount : Nat
  deriving Repr, DecidableEq

/-- Embeds `telemetry_sendGPSData` (`telemetry_handling.cpp` lines 191-205). -/
def telemetry_sendGPSData (st : TelemetryState) (now : Nat)
    (sats hdop lat lon altitude : Nat) (queueOk : Bool) : SendResult :=
  if sub32 now st.last_gps_update > GPS_TIMEMIN then
    let r := createGPSDatagram st.telemetrySeqNumber now sats hdop lat lon
      altitude st.packetNumber
    { state := { st with
        packetNumber := r.2
        telemetrySeqNumber := (st.telemetrySeqNumber + 1) % UINT32_MOD
        last_gps_update := now }
      handled := true
      built := some r.1
      freeCount := if queueOk then 0 else 1 }
  else
    { state := st, handled := false, built := none, freeCount := 0 }

/-- Embeds `telemetry_sendIMUData` (lines 207-222): caches the sample into `imu`
first, then rate-checks against `last_sensor_update`. -/
def telemetry_sendIMUData (st : TelemetryState) (now : Nat) (data : IMU_data)
    (speed altitude : Nat) (queueOk : Bool) : SendResult :=
  let st := { st with imu := data }
  if sub32 now st.last_sensor_update > TELE_TIMEMIN then
    let r := createTelemetryDatagram st.imu st.baro now st.telemetrySeqNumber
      st.packetNumber speed altitude
    { state := { st with
        packetNumber := r.2
        telemetrySeqNumber := (st.telemetrySeqNumber + 1) % UINT32_MOD
        last_sensor_update := now }
      handled := true
      built := some r.1
      freeCount := if queueOk then 0 else 1 }
  else
    { state := st, handled := false, built := none, freeCount := 0 }

/-- Embeds `telemetry_sendBaroData` (lines 224-239). -/
def telemetry_sendBaroData (st : TelemetryState) (now : Nat) (data : BARO_data)
    (speed altitude : Nat) (queueOk : Bool) : SendResult :=
  let st := { st with baro := data }
  if sub32 now st.last_sensor_update > TELE_TIMEMIN then
    let r := createTelemetryDatagram st.imu st.baro now st.telemetrySeqNumber
      st.packetNumber speed altitude
    { state := { st with
        packetNumber := r.2
        telemetrySeqNumber := (st.telemetrySeqNumber + 1) % UINT32_MOD
        last_sensor_update := now }
      handled := true
      built := some r.1
      freeCount := if queueOk then 0 else 1 }
  else
    { state := st, handled := false, built := none, freeCount := 0 }

/-- Embeds `telemetry_sendMotorPressureData` (lines 241-255).  The source passes
`(pressure, now, telemetrySeqNumber++)` to
`createMotorPressurePacketDatagram(time_stamp, pressure, seqNumber)`: the
pressure argument lands in the `time_stamp` parameter and the current tick in
the `pressure` parameter (the `uint32_t` pressure is converted to `float32_t`
at that call; the conversion is abstracted). -/
def telemetry_sendMotorPressureData (st : TelemetryState) (now : Nat)
    (pressure : Nat) (queueOk : Bool) : SendResult :=
  if sub32 now st.last_motor_update > MOTOR_TIMEMIN then
    let r := createMotorPressurePacketDatagram pressure now
      st.telemetrySeqNumber st.packetNumber
    { state := { st with
        packetNumber := r.2
        telemetrySeqNumber := (st.telemetrySeqNumber + 1) % UINT32_MOD
        last_motor_update := now }
      handled := true
      built := some r.1
      freeCount := if queueOk then 0 else 1 }
  else
    { state := st, handled := false, built := none, freeCount := 0 }

/-- Embeds `telemetry_sendWarningPacketData` (lines 257-271). -/
def telemetry_sendWarningPacketData (st : TelemetryState) (now : Nat)
    (id value av_state : Nat) (queueOk : Bool) : SendResult :=
  if sub32 now st.last_warning_update > WARNING_TIMEMIN then
    let r := createWarningPacketDatagram now id value av_state
      st.telemetrySeqNumber st.packetNumber
    { state := { st with
        packetNumber := r.2
        telemetrySeqNumber := (st.telemetrySeqNumber + 1) % UINT32_MOD
        last_warning_update := now }
      handled := true
      built := some r.1
      freeCount := if queueOk then 0 else 1 }
  else
    { state := st, handled := false, built := none, freeCount := 0 }

/-- Embeds `telemetry_sendABData` (lines 273-286; `can_getABangle()` passed in). -/
def telemetry_sendABData (st : TelemetryState) (now : Nat) (abAngle : Nat)
    (queueOk : Bool) : SendResult :=
  if sub32 now st.last_airbrakes_update > AB_TIMEMIN then
    let r := createAirbrakesDatagram now st.telemetrySeqNumber st.packetNumber
      abAngle
    { state := { st with
        packetNumber := r.2
        telemetrySeqNumber := (st.telemetrySeqNumber + 1) % UINT32_MOD
        last_airbrakes_update := now }
      handled := true
      built := some r.1
      freeCount := if queueOk then 0 else 1 }
  else
    { state := st, handled := false, built := none, freeCount := 0 }

/-- Runs `telemetry_sendIMUData` at a list of ticks (fresh sample and accepted
queue at every call) and records the returned `handled` flags. -/
def runIMUCalls (st : TelemetryState) (ticks : List Nat) : List Bool :=
  (ticks.foldl
    (fun acc t =>
      let r := telemetry_sendIMUData acc.1 t ⟨0, 0, 0, 0, 0, 0⟩ 0 0 true
      (r.state, acc.2 ++ [r.handled]))
    ((st, []) : TelemetryState × List Bool)).2

end TelemetryModel

namespace MessageBusModel

theorem handlersFor_append (bus : MessageBus) (id : UInt8)
    (e : UInt8 × Handler) :
    handlersFor { bus with handlers := bus.handlers ++ [e] } id
      = handlersFor bus id ++ (if e.1 == id then [e.2] else []) := by
  unfold handlersFor
  rw [List.filter_append]
  by_cases h : e.1 == id <;> simp [h]

theorem handlersFor_eq_nil_of_not_mem (bus : MessageBus) (id : UInt8)
    (h : ∀ e ∈ bus.handlers, e.1 ≠ id) : handlersFor bus id = [] := by
  unfold handlersFor
  have : bus.handlers.filter (fun e => e.1 == id) = [] := by
    apply List.filter_eq_nil_iff.mpr
    intro e he
    simpa using h e he
  rw [this]
  rfl

end MessageBusModel

open MessageBusModel

/-- C1: for every identifier `X` with handlers `H1`, `H2` registered in that
order (and no other handler registered for `X`), `receive` on a buffer whose
first byte is `X` and whose payload length matches the registered length invokes
exactly `H1` then `H2`, once each, and no handler registered for another
identifier. -/
theorem C1_dispatch_determinism (b0 : MessageBus) (hash : Nat) (X : UInt8)
    (H1 H2 : Handler) (payload : List UInt8)
    (hreg : lookupIdentifier b0 hash = some X)
    (hlen : payload.length = (b0.safe_cast_reference X).toNat)
    (hnone : ∀ e ∈ b0.handlers, e.1 ≠ X) :
    receive (register_handler (register_handler b0 hash H1) hash H2)
      (X :: payload) = [H1, H2] := by
  have h1 : register_handler b0 hash H1
      = { b0 with handlers := b0.handlers ++ [(X, H1)] } := by
    unfold register_handler
    rw [hreg]
  have hlook1 : lookupIdentifier { b0 with handlers := b0.handlers ++ [(X, H1)] } hash
      = some X := hreg
  have h2 : register_handler { b0 with handlers := b0.handlers ++ [(X, H1)] } hash H2
      = { b0 with handlers := (b0.handlers ++ [(X, H1)]) ++ [(X, H2)] } := by
    unfold register_handler
    rw [hlook1]
  rw [h1, h2]
  unfold receive
  simp only [hlen]
  rw [if_pos (by simp)]
  have hfX : handlersFor { b0 with handlers := (b0.handlers ++ [(X, H1)]) ++ [(X, H2)] } X
      = handlersFor { b0 with handlers := b0.handlers ++ [(X, H1)] } X ++ [H2] := by
    have := handlersFor_append { b0 with handlers := b0.handlers ++ [(X, H1)] } X (X, H2)
    simpa using this
  have hfX1 : handlersFor { b0 with handlers := b0.handlers ++ [(X, H1)] } X
      = handlersFor b0 X ++ [H1] := by
    have := handlersFor_append b0 X (X, H1)
    simpa using this
  rw [hfX, hfX1, handlersFor_eq_nil_of_not_mem b0 X hnone]
  rfl

/-- Witness for C1 at a concrete bus: kind with hash 1, size 4, identifier 5;
handlers 10 and 20; payload of 4 bytes. -/
theorem C1_dispatch_determinism_witness :
    receive
      (register_handler
        (register_handler
          (register_object ⟨[], fun _ => 0, []⟩ 1 4 5) 1 10) 1 20)
      (5 :: [0, 0, 0, 0]) = [10, 20] := by
  have h := C1_dispatch_determinism (register_object ⟨[], fun _ => 0, []⟩ 1 4 5)
    1 5 10 20 [0, 0, 0, 0] (by decide) (by decide) (by decide)
  exact h

/-- C2: an empty buffer is a no-op, and a non-empty buffer whose
`length - 1` differs from the length registered for the identifier in the first
byte causes zero handler invocations. -/
theorem C2_malformed_input (bus : MessageBus) :
    receive bus [] = [] ∧
    ∀ packet_id : UInt8, ∀ payload : List UInt8,
      payload.length ≠ (bus.safe_cast_reference packet_id).toNat →
      receive bus (packet_id :: payload) = [] := by
  constructor
  · rfl
  · intro packet_id payload hne
    show (if (payload.length == (bus.safe_cast_reference packet_id).toNat) = true
        then handlersFor bus packet_id else []) = []
    rw [if_neg (by simpa using hne)]

/-- Witness for C2: a bus with a registered kind and handler still performs zero
invocations on an undersized buffer. -/
theorem C2_malformed_input_witness :
    receive
      (register_handler (register_object ⟨[], fun _ => 0, []⟩ 1 4 5) 1 10)
      (5 :: [0, 0]) = [] :=
  (C2_malformed_input
    (register_handler (register_object ⟨[], fun _ => 0, []⟩ 1 4 5) 1 10)).2
    5 [0, 0] (by decide)

open DatagramBuilderModel TelemetryModel

set_option maxRecDepth 4000 in
/-- C5: the write8 bounds check compares the cursor only against the declared
datagram size, never against the MALLOC_SIZE = 64 bytes actually allocated.
With declared payload size 58 the declared datagram size is 65, so after the 5
header bytes the builder accepts 60 more writes and the last accepted write
stores a byte at offset 64, outside the 64-byte allocation: the claim that no
write lands outside the allocated buffer under any input fails. -/
theorem C5_write_past_allocation :
    (writeN (mkBuilder 58 0 true) (List.replicate 60 0)).currentIdx
        = (mkBuilder 58 0 true).datagramSize
  ∧ (writeN (mkBuilder 58 0 true) (List.replicate 60 0)).bytes.length = 65
  ∧ MALLOC_SIZE < (writeN (mkBuilder 58 0 true) (List.replicate 60 0)).bytes.length := by
  decide

/-- C6: on the allocation-failure path every subsequent write8 is a no-op as
claimed, but finalizeDatagram is not free of reads from unallocated memory: its
CRC loop still reads buffer offsets HEADER_SIZE..currentIdx-1 (here offsets 5
and 6) through the NULL datagramPtr, so the claim that finalize reads no
uninitialized or unallocated memory fails. -/
theorem C6_finalize_reads_through_null :
    (mkBuilder 0 0 false).allocOk = false
  ∧ (mkBuilder 0 0 false).bytes = []
  ∧ writeN (mkBuilder 0 0 false) [1, 2, 3] = mkBuilder 0 0 false
  ∧ finalizeReadIndices (mkBuilder 0 0 false) = [5, 6] := by
  decide

/-- C3 counterexample: with the initial state (last sent tick 0) and minimum
interval 20, a call at tick 0 has elapsed time 0, which is not strictly greater
than 20, so no send is attempted at tick 0; for calls at ticks 0, 5, 25 the
handled flags are [false, false, true], not [true, false, true] as the claim
has it. -/
theorem C3_no_send_at_tick0 :
    (telemetry_sendIMUData initialTelemetryState 0 ⟨0, 0, 0, 0, 0, 0⟩ 0 0 true).handled
        = false
  ∧ (telemetry_sendIMUData initialTelemetryState 0 ⟨0, 0, 0, 0, 0, 0⟩ 0 0 true).built
        = none
  ∧ runIMUCalls initialTelemetryState [0, 5, 25] = [false, false, true] := by
  decide

/-- C3 (amended): for every telemetry category (telemetry/IMU+baro, GPS,
motor pressure, warning, airbrakes) with its minimum interval I, a call to the
sender at tick now attempts a send (builds a datagram and returns true) if and
only if the wrapped uint32 difference now - last_sent is strictly greater than
I, and otherwise returns false without building anything; with interval 20 and
calls at ticks 0, 5, 25 from the initial state, a send is attempted at tick 25
only. -/
theorem C3_rate_limiting :
    (∀ (st : TelemetryState) (now : Nat) (data : IMU_data) (speed altitude : Nat) (q : Bool),
        ((telemetry_sendIMUData st now data speed altitude q).handled = true
            ↔ sub32 now st.last_sensor_update > TELE_TIMEMIN)
      ∧ ((telemetry_sendIMUData st now data speed altitude q).built.isSome
            ↔ sub32 now st.last_sensor_update > TELE_TIMEMIN)
      ∧ (¬ sub32 now st.last_sensor_update > TELE_TIMEMIN →
            (telemetry_sendIMUData st now data speed altitude q).built = none
          ∧ (telemetry_sendIMUData st now data speed altitude q).handled = false))
  ∧ (∀ (st : TelemetryState) (now : Nat) (data : BARO_data) (speed altitude : Nat) (q : Bool),
        ((telemetry_sendBaroData st now data speed altitude q).handled = true
            ↔ sub32 now st.last_sensor_update > TELE_TIMEMIN)
      ∧ ((telemetry_sendBaroData st now data speed altitude q).built.isSome
            ↔ sub32 now st.last_sensor_update > TELE_TIMEMIN)
      ∧ (¬ sub32 now st.last_sensor_update > TELE_TIMEMIN →
            (telemetry_sendBaroData st now data speed altitude q).built = none
          ∧ (telemetry_sendBaroData st now data speed altitude q).handled = false))
  ∧ (∀ (st : TelemetryState) (now sats hdop lat lon altitude : Nat) (q : Bool),
        ((telemetry_sendGPSData st now sats hdop lat lon altitude q).handled = true
            ↔ sub32 now st.last_gps_update > GPS_TIMEMIN)
      ∧ ((telemetry_sendGPSData st now sats hdop lat lon altitude q).built.isSome
            ↔ sub32 now st.last_gps_update > GPS_TIMEMIN)
      ∧ (¬ sub32 now st.last_gps_update > GPS_TIMEMIN →
            (telemetry_sendGPSData st now sats hdop lat lon altitude q).built = none
          ∧ (telemetry_sendGPSData st now sats hdop lat lon altitude q).handled = false))
  ∧ (∀ (st : TelemetryState) (now pressure : Nat) (q : Bool),
        ((telemetry_sendMotorPressureData st now pressure q).handled = true
            ↔ sub32 now st.last_motor_update > MOTOR_TIMEMIN)
      ∧ ((telemetry_sendMotorPressureData st now pressure q).built.isSome
            ↔ sub32 now st.last_motor_update > MOTOR_TIMEMIN)
      ∧ (¬ sub32 now st.last_motor_update > MOTOR_TIMEMIN →
            (telemetry_sendMotorPressureData st now pressure q).built = none
          ∧ (telemetry_sendMotorPressureData st now pressure q).handled = false))
  ∧ (∀ (st : TelemetryState) (now i v a : Nat) (q : Bool),
        ((telemetry_sendWarningPacketData st now i v a q).handled = true
            ↔ sub32 now st.last_warning_update > WARNING_TIMEMIN)
      ∧ ((telemetry_sendWarningPacketData st now i v a q).built.isSome
            ↔ sub32 now st.last_warning_update > WARNING_TIMEMIN)
      ∧ (¬ sub32 now st.last_warning_update > WARNING_TIMEMIN →
            (telemetry_sendWarningPacketData st now i v a q).built = none
          ∧ (telemetry_sendWarningPacketData st now i v a q).handled = false))
  ∧ (∀ (st : TelemetryState) (now ang : Nat) (q : Bool),
        ((telemetry_sendABData st now ang q).handled = true
            ↔ sub32 now st.last_airbrakes_update > AB_TIMEMIN)
      ∧ ((telemetry_sendABData st now ang q).built.isSome
            ↔ sub32 now st.last_airbrakes_update > AB_TIMEMIN)
      ∧ (¬ sub32 now st.last_airbrakes_update > AB_TIMEMIN →
            (telemetry_sendABData st now ang q).built = none
          ∧ (telemetry_sendABData st now ang q).handled = false))
  ∧ runIMUCalls initialTelemetryState [0, 5, 25] = [false, false, true] := by
  refine ⟨?_, ?_, ?_, ?_, ?_, ?_, by decide⟩
  · intro st now data speed altitude q
    by_cases h : sub32 now st.last_sensor_update > TELE_TIMEMIN
    · refine ⟨?_, ?_, ?_⟩ <;> simp [telemetry_sendIMUData, h]
    · refine ⟨?_, ?_, ?_⟩ <;> simp [telemetry_sendIMUData, h]
  · intro st now data speed altitude q
    by_cases h : sub32 now st.last_sensor_update > TELE_TIMEMIN
    · refine ⟨?_, ?_, ?_⟩ <;> simp [telemetry_sendBaroData, h]
    · refine ⟨?_, ?_, ?_⟩ <;> simp [telemetry_sendBaroData, h]
  · intro st now sats hdop lat lon altitude q
    by_cases h : sub32 now st.last_gps_update > GPS_TIMEMIN
    · refine ⟨?_, ?_, ?_⟩ <;> simp [telemetry_sendGPSData, h]
    · refine ⟨?_, ?_, ?_⟩ <;> simp [telemetry_sendGPSData, h]
  · intro st now pressure q
    by_cases h : sub32 now st.last_motor_update > MOTOR_TIMEMIN
    · refine ⟨?_, ?_, ?_⟩ <;> simp [telemetry_sendMotorPressureData, h]
    · refine ⟨?_, ?_, ?_⟩ <;> simp [telemetry_sendMotorPressureData, h]
  · intro st now i v a q
    by_cases h : sub32 now st.last_warning_update > WARNING_TIMEMIN
    · refine ⟨?_, ?_, ?_⟩ <;> simp [telemetry_sendWarningPacketData, h]
    · refine ⟨?_, ?_, ?_⟩ <;> simp [telemetry_sendWarningPacketData, h]
  · intro st now ang q
    by_cases h : sub32 now st.last_airbrakes_update > AB_TIMEMIN
    · refine ⟨?_, ?_, ?_⟩ <;> simp [telemetry_sendABData, h]
    · refine ⟨?_, ?_, ?_⟩ <;> simp [telemetry_sendABData, h]

/-- Witness for C3 at tick 25 from the initial state: the telemetry (IMU)
category attempts the send. -/
theorem C3_rate_limiting_witness :
    (telemetry_sendIMUData initialTelemetryState 25 ⟨0, 0, 0, 0, 0, 0⟩ 0 0 true).handled
      = true :=
  (C3_rate_limiting.1 initialTelemetryState 25 ⟨0, 0, 0, 0, 0, 0⟩ 0 0 true).1.mpr
    (by decide)

/-- C4: whenever any of the six telemetry senders (GPS, IMU, baro, motor
pressure, warning, airbrakes) finds its interval elapsed, it builds and
finalizes a datagram through its category constructor, submits it to the
outbound queue (a bounded 10-tick wait, whose outcome enters the model as
queueOk), frees the buffer exactly once if and only if the queue rejects the
submission, updates the last-sent tick and the per-category sequence number
regardless of the submission outcome, and returns true. -/
theorem C4_backpressure :
    (∀ (st : TelemetryState) (now sats hdop lat lon altitude : Nat) (q : Bool),
        sub32 now st.last_gps_update > GPS_TIMEMIN →
        (telemetry_sendGPSData st now sats hdop lat lon altitude q).built
            = some (createGPSDatagram st.telemetrySeqNumber now sats hdop lat lon
                altitude st.packetNumber).1
      ∧ (telemetry_sendGPSData st now sats hdop lat lon altitude q).freeCount
            = (if q then 0 else 1)
      ∧ (telemetry_sendGPSData st now sats hdop lat lon altitude q).state.last_gps_update
            = now
      ∧ (telemetry_sendGPSData st now sats hdop lat lon altitude q).state.telemetrySeqNumber
            = (st.telemetrySeqNumber + 1) % UINT32_MOD
      ∧ (telemetry_sendGPSData st now sats hdop lat lon altitude q).handled = true)
  ∧ (∀ (st : TelemetryState) (now : Nat) (data : IMU_data) (speed altitude : Nat) (q : Bool),
        sub32 now st.last_sensor_update > TELE_TIMEMIN →
        (telemetry_sendIMUData st now data speed altitude q).built
            = some (createTelemetryDatagram data st.baro now st.telemetrySeqNumber
                st.packetNumber speed altitude).1
      ∧ (telemetry_sendIMUData st now data speed altitude q).freeCount
            = (if q then 0 else 1)
      ∧ (telemetry_sendIMUData st now data speed altitude q).state.last_sensor_update
            = now
      ∧ (telemetry_sendIMUData st now data speed altitude q).state.telemetrySeqNumber
            = (st.telemetrySeqNumber + 1) % UINT32_MOD
      ∧ (telemetry_sendIMUData st now data speed altitude q).handled = true)
  ∧ (∀ (st : TelemetryState) (now : Nat) (data : BARO_data) (speed altitude : Nat) (q : Bool),
        sub32 now st.last_sensor_update > TELE_TIMEMIN →
        (telemetry_sendBaroData st now data speed altitude q).built
            = some (createTelemetryDatagram st.imu data now st.telemetrySeqNumber
                st.packetNumber speed altitude).1
      ∧ (telemetry_sendBaroData st now data speed altitude q).freeCount
            = (if q then 0 else 1)
      ∧ (telemetry_sendBaroData st now data speed altitude q).state.last_sensor_update
            = now
      ∧ (telemetry_sendBaroData st now data speed altitude q).state.telemetrySeqNumber
            = (st.telemetrySeqNumber + 1) % UINT32_MOD
      ∧ (telemetry_sendBaroData st now data speed altitude q).handled = true)
  ∧ (∀ (st : TelemetryState) (now pressure : Nat) (q : Bool),
        sub32 now st.last_motor_update > MOTOR_TIMEMIN →
        (telemetry_sendMotorPressureData st now pressure q).built
            = some (createMotorPressurePacketDatagram pressure now
                st.telemetrySeqNumber st.packetNumber).1
      ∧ (telemetry_sendMotorPressureData st now pressure q).freeCount
            = (if q then 0 else 1)
      ∧ (telemetry_sendMotorPressureData st now pressure q).state.last_motor_update
            = now
      ∧ (telemetry_sendMotorPressureData st now pressure q).state.telemetrySeqNumber
            = (st.telemetrySeqNumber + 1) % UINT32_MOD
      ∧ (telemetry_sendMotorPressureData st now pressure q).handled = true)
  ∧ (∀ (st : TelemetryState) (now i v a : Nat) (q : Bool),
        sub32 now st.last_warning_update > WARNING_TIMEMIN →
        (telemetry_sendWarningPacketData st now i v a q).built
            = some (createWarningPacketDatagram now i v a st.telemetrySeqNumber
                st.packetNumber).1
      ∧ (telemetry_sendWarningPacketData st now i v a q).freeCount
            = (if q then 0 else 1)
      ∧ (telemetry_sendWarningPacketData st now i v a q).state.last_warning_update
            = now
      ∧ (telemetry_sendWarningPacketData st now i v a q).state.telemetrySeqNumber
            = (st.telemetrySeqNumber + 1) % UINT32_MOD
      ∧ (telemetry_sendWarningPacketData st now i v a q).handled = true)
  ∧ (∀ (st : TelemetryState) (now ang : Nat) (q : Bool),
        sub32 now st.last_airbrakes_update > AB_TIMEMIN →
        (telemetry_sendABData st now ang q).built
            = some (createAirbrakesDatagram now st.telemetrySeqNumber
                st.packetNumber ang).1
      ∧ (telemetry_sendABData st now ang q).freeCount
            = (if q then 0 else 1)
      ∧ (telemetry_sendABData st now ang q).state.last_airbrakes_update
            = now
      ∧ (telemetry_sendABData st now ang q).state.telemetrySeqNumber
            = (st.telemetrySeqNumber + 1) % UINT32_MOD
      ∧ (telemetry_sendABData st now ang q).handled = true) := by
  refine ⟨?_, ?_, ?_, ?_, ?_, ?_⟩
  · intro st now sats hdop lat lon altitude q h
    refine ⟨?_, ?_, ?_, ?_, ?_⟩ <;> simp [telemetry_sendGPSData, h]
  · intro st now data speed altitude q h
    refine ⟨?_, ?_, ?_, ?_, ?_⟩ <;> simp [telemetry_sendIMUData, h]
  · intro st now data speed altitude q h
    refine ⟨?_, ?_, ?_, ?_, ?_⟩ <;> simp [telemetry_sendBaroData, h]
  · intro st now pressure q h
    refine ⟨?_, ?_, ?_, ?_, ?_⟩ <;> simp [telemetry_sendMotorPressureData, h]
  · intro st now i v a q h
    refine ⟨?_, ?_, ?_, ?_, ?_⟩ <;> simp [telemetry_sendWarningPacketData, h]
  · intro st now ang q h
    refine ⟨?_, ?_, ?_, ?_, ?_⟩ <;> simp [telemetry_sendABData, h]

/-- Witness for C4: a concrete GPS call at tick 101 from the initial state with
a rejecting queue frees the buffer exactly once. -/
theorem C4_backpressure_witness :
    (telemetry_sendGPSData initialTelemetryState 101 1 2 3 4 5 false).freeCount
      = (if false then 0 else 1) :=
  (C4_backpressure.1 initialTelemetryState 101 1 2 3 4 5 false (by decide)).2.1

/-- C10: telemetry_sendMotorPressureData passes (pressure, now, seq) to
createMotorPressurePacketDatagram(time_stamp, pressure, seqNumber), so in the
built payload the first field (the timestamp position) carries the pressure
argument and the third field (the pressure position) carries the current tick;
every other telemetry category puts the current tick in the first payload
field. -/
theorem C10_motor_arguments_swapped (st : TelemetryState) (now pressure : Nat)
    (q : Bool) (h : sub32 now st.last_motor_update > MOTOR_TIMEMIN) :
    (telemetry_sendMotorPressureData st now pressure q).built
        = some [pressure, st.packetNumber, now]
  ∧ (∀ st2 now2 sats hdop lat lon alt q2,
        sub32 now2 st2.last_gps_update > GPS_TIMEMIN →
        ∃ rest, (telemetry_sendGPSData st2 now2 sats hdop lat lon alt q2).built
            = some (now2 :: rest))
  ∧ (∀ st2 now2 data speed alt q2,
        sub32 now2 st2.last_sensor_update > TELE_TIMEMIN →
        ∃ rest, (telemetry_sendIMUData st2 now2 data speed alt q2).built
            = some (now2 :: rest))
  ∧ (∀ st2 now2 data speed alt q2,
        sub32 now2 st2.last_sensor_update > TELE_TIMEMIN →
        ∃ rest, (telemetry_sendBaroData st2 now2 data speed alt q2).built
            = some (now2 :: rest))
  ∧ (∀ st2 now2 i v a q2,
        sub32 now2 st2.last_warning_update > WARNING_TIMEMIN →
        ∃ rest, (telemetry_sendWarningPacketData st2 now2 i v a q2).built
            = some (now2 :: rest))
  ∧ (∀ st2 now2 ang q2,
        sub32 now2 st2.last_airbrakes_update > AB_TIMEMIN →
        ∃ rest, (telemetry_sendABData st2 now2 ang q2).built
            = some (now2 :: rest)) := by
  refine ⟨?_, ?_, ?_, ?_, ?_, ?_⟩
  · simp [telemetry_sendMotorPressureData, h, createMotorPressurePacketDatagram]
  · intro st2 now2 sats hdop lat lon alt q2 h2
    exact ⟨[st2.packetNumber, sats, hdop, lat, lon, alt],
      by simp [telemetry_sendGPSData, h2, createGPSDatagram]⟩
  · intro st2 now2 data speed alt q2 h2
    exact ⟨[st2.packetNumber, data.ax, data.ay, data.az, data.ex, data.ey,
        data.ez, st2.baro.temperature, st2.baro.pressure, speed, alt],
      by simp [telemetry_sendIMUData, h2, createTelemetryDatagram]⟩
  · intro st2 now2 data speed alt q2 h2
    exact ⟨[st2.packetNumber, st2.imu.ax, st2.imu.ay, st2.imu.az, st2.imu.ex,
        st2.imu.ey, st2.imu.ez, data.temperature, data.pressure, speed, alt],
      by simp [telemetry_sendBaroData, h2, createTelemetryDatagram]⟩
  · intro st2 now2 i v a q2 h2
    exact ⟨[st2.packetNumber, i, v, a],
      by simp [telemetry_sendWarningPacketData, h2, createWarningPacketDatagram]⟩
  · intro st2 now2 ang q2 h2
    exact ⟨[st2.packetNumber, ang],
      by simp [telemetry_sendABData, h2, createAirbrakesDatagram]⟩

/-- Witness for C10: concrete motor-pressure call at tick 101 with pressure 77
from the initial state builds payload [77, 0, 101]. -/
theorem C10_motor_arguments_swapped_witness :
    (telemetry_sendMotorPressureData initialTelemetryState 101 77 true).built
      = some [77, initialTelemetryState.packetNumber, 101] :=
  (C10_motor_arguments_swapped initialTelemetryState 101 77 true (by decide)).1

open MessageBusModel

/-- C8 counterexample: a kind of size exactly 256 is registered (identifier
assigned, not rejected), but the cast to uint8 stores expected payload length
(uint8_t) 256 = 0, not 256; receive therefore accepts a buffer of length 1 for
that identifier and dispatches, contradicting the claim that exactly buffers of
length 256 + 1 are accepted for it. -/
theorem C8_size256_truncation :
    lookupIdentifier (register_object ⟨[], fun _ => 0, []⟩ 1 256 7) 1 = some 7
  ∧ ((register_object ⟨[], fun _ => 0, []⟩ 1 256 7).safe_cast_reference 7).toNat
        = 0
  ∧ receive (register_handler (register_object ⟨[], fun _ => 0, []⟩ 1 256 7) 1 10)
        [7] = [10] := by
  decide

/-- C8 (amended): register_object rejects (as a no-op) every kind whose size
exceeds 256; a kind whose size is at most 256 is registered with stored
expected payload length sizeof(Kind) mod 256 — equal to sizeof(Kind) for sizes
up to 255, but 0 for size exactly 256 — and receive accepts for that identifier
exactly the buffers of length (sizeof(Kind) mod 256) + 1. -/
theorem C8_registration_size (bus : MessageBus) (hash size : Nat) (id : UInt8) :
    (size > 256 → register_object bus hash size id = bus)
  ∧ (size ≤ 256 →
        lookupIdentifier (register_object bus hash size id) hash = some id
      ∧ ((register_object bus hash size id).safe_cast_reference id).toNat
            = size % 256
      ∧ ∀ payload : List UInt8,
          receive (register_object bus hash size id) (id :: payload)
            = if payload.length = size % 256
              then handlersFor (register_object bus hash size id) id
              else []) := by
  constructor
  · intro hgt
    unfold register_object
    rw [if_pos hgt]
  · intro hle
    have hnot : ¬ size > 256 := Nat.not_lt.mpr hle
    have hreg : register_object bus hash size id
        = { bus with
            identifiers := (hash, id) :: bus.identifiers
            safe_cast_reference := fun i =>
              if i == id then UInt8.ofNat size else bus.safe_cast_reference i } := by
      unfold register_object
      rw [if_neg hnot]
    have hsc : ((register_object bus hash size id).safe_cast_reference id).toNat
        = size % 256 := by
      rw [hreg]
      simp only [beq_self_eq_true, if_true]
      exact UInt8.toNat_ofNat size
    refine ⟨?_, hsc, ?_⟩
    · rw [hreg]
      simp [lookupIdentifier]
    · intro payload
      show (if (payload.length
            == ((register_object bus hash size id).safe_cast_reference id).toNat) = true
          then handlersFor (register_object bus hash size id) id else [])
        = if payload.length = size % 256
          then handlersFor (register_object bus hash size id) id else []
      rw [hsc]
      by_cases hp : payload.length = size % 256
      · rw [if_pos (by simpa using hp), if_pos hp]
      · rw [if_neg (by simpa using hp), if_neg hp]

/-- Witness for C8 at a concrete registration of a 4-byte kind. -/
theorem C8_registration_size_witness :
    ((register_object ⟨[], fun _ => 0, []⟩ 1 4 5).safe_cast_reference 5).toNat
      = 4 % 256 :=
  ((C8_registration_size ⟨[], fun _ => 0, []⟩ 1 4 5).2 (by decide)).2.1

namespace MessageBusModel

theorem regPairs_cons (r : Nat × Nat × UInt8) (rs : List (Nat × Nat × UInt8)) :
    regPairs (r :: rs)
      = regPairs rs ++ (if r.2.1 > 256 then [] else [(r.1, r.2.2)]) := by
  unfold regPairs
  rw [List.filter_cons]
  by_cases hr : r.2.1 > 256
  · simp [hr]
  · simp [hr]

theorem register_objects_identifiers (regs : List (Nat × Nat × UInt8))
    (bus : MessageBus) :
    (register_objects bus regs).identifiers = regPairs regs ++ bus.identifiers := by
  induction regs generalizing bus with
  | nil => simp [register_objects, regPairs]
  | cons r rs ih =>
    show (register_objects (register_object bus r.1 r.2.1 r.2.2) rs).identifiers = _
    rw [ih, regPairs_cons]
    unfold register_object
    by_cases hr : r.2.1 > 256
    · simp [hr]
    · simp [hr]

theorem lookupIdentifier_mem (bus : MessageBus) (h : Nat) (i : UInt8)
    (hm : lookupIdentifier bus h = some i) : (h, i) ∈ bus.identifiers := by
  unfold lookupIdentifier at hm
  obtain ⟨p, hfind, hsnd⟩ := Option.map_eq_some'.mp hm
  have hmem := List.mem_of_find?_eq_some hfind
  have hpred := List.find?_some hfind
  have h1 : p.1 = h := by simpa using hpred
  have hp : p = (h, i) := by
    cases p
    simp_all
  rwa [hp] at hmem

theorem regPairs_snd_nodup (regs : List (Nat × Nat × UInt8))
    (hids : (regs.map (fun r => r.2.2)).Nodup) :
    ((regPairs regs).map (fun p => p.2)).Nodup := by
  unfold regPairs
  rw [List.map_reverse, List.nodup_reverse, List.map_map]
  have hco : ((fun p : Nat × UInt8 => p.2) ∘ (fun r : Nat × Nat × UInt8 => (r.1, r.2.2)))
      = fun r : Nat × Nat × UInt8 => r.2.2 := rfl
  rw [hco]
  exact List.Nodup.sublist (List.Sublist.map _ (List.filter_sublist _)) hids

end MessageBusModel

/-- C9 counterexample: register_object enforces no identifier distinctness:
registering two distinct kinds (type hashes 1 and 2) both with identifier 5
leaves both kinds assigned the same wire identifier. -/
theorem C9_shared_identifier :
    lookupIdentifier
        (register_object (register_object ⟨[], fun _ => 0, []⟩ 1 4 5) 2 8 5) 1
      = some 5
  ∧ lookupIdentifier
        (register_object (register_object ⟨[], fun _ => 0, []⟩ 1 4 5) 2 8 5) 2
      = some 5
  ∧ (1 : Nat) ≠ 2 := by
  decide

/-- C9 (amended): the code performs no distinctness check, so the uniqueness
invariant holds only under the registration discipline: if the identifiers
passed across a sequence of register_object calls are pairwise distinct, then
any two registered kinds with distinct type hashes resolve to distinct wire
identifiers (the identifier-to-expected-length registry is a total 256-entry
array by construction). -/
theorem C9_identifier_uniqueness (regs : List (Nat × Nat × UInt8))
    (hids : (regs.map (fun r => r.2.2)).Nodup)
    (h1 h2 : Nat) (i1 i2 : UInt8) (hne : h1 ≠ h2)
    (l1 : lookupIdentifier (register_objects ⟨[], fun _ => 0, []⟩ regs) h1 = some i1)
    (l2 : lookupIdentifier (register_objects ⟨[], fun _ => 0, []⟩ regs) h2 = some i2) :
    i1 ≠ i2 := by
  have m1 := lookupIdentifier_mem _ _ _ l1
  have m2 := lookupIdentifier_mem _ _ _ l2
  rw [register_objects_identifiers, List.append_nil] at m1 m2
  intro heq
  have hnodup := regPairs_snd_nodup regs hids
  have hinj := List.inj_on_of_nodup_map hnodup m1 m2 (by simpa using heq)
  exact hne (by simpa using congrArg Prod.fst hinj)

/-- Witness for C9: two kinds registered with distinct identifiers 5 and 6
indeed resolve to distinct identifiers. -/
theorem C9_identifier_uniqueness_witness :
    lookupIdentifier (register_objects ⟨[], fun _ => 0, []⟩ [(1, 4, 5), (2, 8, 6)]) 1
        = some 5
  ∧ lookupIdentifier (register_objects ⟨[], fun _ => 0, []⟩ [(1, 4, 5), (2, 8, 6)]) 2
        = some 6
  ∧ (5 : UInt8) ≠ 6 :=
  ⟨by decide, by decide,
    C9_identifier_uniqueness [(1, 4, 5), (2, 8, 6)] (by decide) 1 2 5 6
      (by decide) (by decide) (by decide)⟩

namespace DatagramBuilderModel

theorem write8_of_le (b : Builder) (v : UInt8)
    (h : b.currentIdx + 1 ≤ b.datagramSize) :
    write8 b v = { b with bytes := b.bytes ++ [v], currentIdx := b.currentIdx + 1 } := by
  unfold write8
  rw [if_pos h]

theorem writeN_all (ws : List UInt8) (b : Builder)
    (h : b.currentIdx + ws.length ≤ b.datagramSize) :
    writeN b ws
      = { b with bytes := b.bytes ++ ws, currentIdx := b.currentIdx + ws.length } := by
  induction ws generalizing b with
  | nil => simp [writeN]
  | cons x xs ih =>
    unfold writeN
    rw [List.foldl_cons]
    rw [write8_of_le b x (by simp at h; omega)]
    have hrest := ih { b with bytes := b.bytes ++ [x], currentIdx := b.currentIdx + 1 }
      (by simp at h ⊢; omega)
    unfold writeN at hrest
    rw [hrest]
    simp [List.append_assoc]
    omega

theorem mkBuilder_alloc_spec (payloadSize : Nat) (ty : UInt8)
    (h : payloadSize + TOTAL_DATAGRAM_OVERHEAD < 65536) :
    mkBuilder payloadSize ty true =
      { datagramSize := payloadSize + TOTAL_DATAGRAM_OVERHEAD
        allocOk := true
        bytes := [ty, 69, 80, 70, 76]
        currentIdx := 5
        datagramCrc := ([ty, 69, 80, 70, 76] : List UInt8).foldl
          (fun c byte => CalculateRemainderFromTable byte c) CRC_INITIAL } := by
  have hm : (payloadSize + TOTAL_DATAGRAM_OVERHEAD) % 65536
      = payloadSize + TOTAL_DATAGRAM_OVERHEAD := Nat.mod_eq_of_lt h
  have hchain : ∀ b0 : Builder,
      write8 (write8 (write8 (write8 (write8 b0 ty) 69) 80) 70) 76
        = writeN b0 [ty, 69, 80, 70, 76] := fun b0 => rfl
  simp only [mkBuilder, eq_self_iff_true, if_true]
  rw [hm, hchain]
  rw [writeN_all [ty, 69, 80, 70, 76]
    (⟨payloadSize + TOTAL_DATAGRAM_OVERHEAD, true, [], 0, 0⟩ : Builder)
    (by unfold TOTAL_DATAGRAM_OVERHEAD; simp)]
  simp

theorem foldl_crc_range (l pre : List UInt8) (c : Nat) :
    (List.range' pre.length l.length).foldl
        (fun acc i => CalculateRemainderFromTable ((pre ++ l).getD i 0) acc) c
      = l.foldl (fun acc byte => CalculateRemainderFromTable byte acc) c := by
  induction l generalizing pre c with
  | nil => simp
  | cons x xs ih =>
    have hx : (pre ++ x :: xs).getD pre.length 0 = x := by
      rw [List.getD_append_right pre (x :: xs) 0 pre.length (le_refl _)]
      simp
    rw [List.length_cons, List.range'_succ, List.foldl_cons, hx]
    have hsplit : pre ++ x :: xs = (pre ++ [x]) ++ xs := by simp
    have hlen : pre.length + 1 = (pre ++ [x]).length := by simp
    rw [hsplit, hlen, ih (pre ++ [x]) (CalculateRemainderFromTable x c),
      List.foldl_cons]

theorem finalizeDatagram_eq (b : Builder) (c : Nat)
    (hc : FinalizeCRC ((finalizeReadIndices b).foldl
        (fun acc i => CalculateRemainderFromTable (b.bytes.getD i 0) acc)
        b.datagramCrc) = c)
    (h1 : b.currentIdx + 1 ≤ b.datagramSize)
    (h2 : b.currentIdx + 1 + 1 ≤ b.datagramSize) :
    finalizeDatagram b
      = (⟨b.allocOk, b.datagramSize⟩,
         { b with
            bytes := (b.bytes ++ [UInt8.ofNat (c >>> 8)]) ++ [UInt8.ofNat c]
            currentIdx := b.currentIdx + 1 + 1
            datagramCrc := c }) := by
  have e1 : write8 { b with datagramCrc := c } (UInt8.ofNat (c >>> 8))
      = { b with
          datagramCrc := c
          bytes := b.bytes ++ [UInt8.ofNat (c >>> 8)]
          currentIdx := b.currentIdx + 1 } :=
    write8_of_le _ _ (by simpa using h1)
  have e2 : write8
      { b with
        datagramCrc := c
        bytes := b.bytes ++ [UInt8.ofNat (c >>> 8)]
        currentIdx := b.currentIdx + 1 } (UInt8.ofNat c)
      = { b with
          datagramCrc := c
          bytes := (b.bytes ++ [UInt8.ofNat (c >>> 8)]) ++ [UInt8.ofNat c]
          currentIdx := b.currentIdx + 1 + 1 } :=
    write8_of_le _ _ (by simpa using h2)
  have hw16 : write16 { b with datagramCrc := c } c
      = { b with
          datagramCrc := c
          bytes := (b.bytes ++ [UInt8.ofNat (c >>> 8)]) ++ [UInt8.ofNat c]
          currentIdx := b.currentIdx + 1 + 1 } := by
    unfold write16
    rw [e1, e2]
  have hstart : finalizeDatagram b
      = (⟨b.allocOk, (write16 { b with datagramCrc := c } c).datagramSize⟩,
         write16 { b with datagramCrc := c } c) := by
    rw [← hc]
    rfl
  rw [hstart, hw16]

end DatagramBuilderModel

/-- C7: for a datagram built with successful allocation whose payload writes
exactly fill the declared payload size, the finalized frame of total size N
has the payload-type tag at offset 0, the marker bytes E, P, F, L at offsets
1..4, and at offsets N-2..N-1 the CRC-16 of bytes [0, N-2) from the fixed
polynomial and initial value (the 5 header bytes enter through the seed
computed by the constructor, the payload bytes through the finalize loop); the
returned message carries the buffer and the total size N. -/
theorem C7_frame_layout (payloadSize : Nat) (ty : UInt8) (ws : List UInt8)
    (hlen : ws.length = payloadSize)
    (hsz : payloadSize + TOTAL_DATAGRAM_OVERHEAD < 65536) :
    (finalizeDatagram (writeN (mkBuilder payloadSize ty true) ws)).2.bytes.length
        = payloadSize + TOTAL_DATAGRAM_OVERHEAD
  ∧ (finalizeDatagram (writeN (mkBuilder payloadSize ty true) ws)).2.bytes.take 5
        = [ty, 69, 80, 70, 76]
  ∧ (finalizeDatagram (writeN (mkBuilder payloadSize ty true) ws)).2.bytes.drop
        (payloadSize + TOTAL_DATAGRAM_OVERHEAD - 2)
      = [UInt8.ofNat ((crcOver
            ((finalizeDatagram (writeN (mkBuilder payloadSize ty true) ws)).2.bytes.take
              (payloadSize + TOTAL_DATAGRAM_OVERHEAD - 2))) >>> 8),
         UInt8.ofNat (crcOver
            ((finalizeDatagram (writeN (mkBuilder payloadSize ty true) ws)).2.bytes.take
              (payloadSize + TOTAL_DATAGRAM_OVERHEAD - 2)))]
  ∧ (finalizeDatagram (writeN (mkBuilder payloadSize ty true) ws)).1.size
        = payloadSize + TOTAL_DATAGRAM_OVERHEAD
  ∧ (finalizeDatagram (writeN (mkBuilder payloadSize ty true) ws)).1.ptrValid
        = true := by
  have hb1 : writeN (mkBuilder payloadSize ty true) ws
      = { datagramSize := payloadSize + TOTAL_DATAGRAM_OVERHEAD
          allocOk := true
          bytes := [ty, 69, 80, 70, 76] ++ ws
          currentIdx := 5 + ws.length
          datagramCrc := ([ty, 69, 80, 70, 76] : List UInt8).foldl
            (fun c byte => CalculateRemainderFromTable byte c) CRC_INITIAL } := by
    rw [mkBuilder_alloc_spec payloadSize ty hsz]
    rw [writeN_all ws _ (by unfold TOTAL_DATAGRAM_OVERHEAD; simp; omega)]
  have hcrc1 : FinalizeCRC
      ((finalizeReadIndices (writeN (mkBuilder payloadSize ty true) ws)).foldl
        (fun acc i => CalculateRemainderFromTable
          ((writeN (mkBuilder payloadSize ty true) ws).bytes.getD i 0) acc)
        (writeN (mkBuilder payloadSize ty true) ws).datagramCrc)
      = crcOver ([ty, 69, 80, 70, 76] ++ ws) := by
    rw [hb1]
    show FinalizeCRC ((List.range' HEADER_SIZE (5 + ws.length - HEADER_SIZE)).foldl
        (fun acc i => CalculateRemainderFromTable
          (([ty, 69, 80, 70, 76] ++ ws).getD i 0) acc)
        (([ty, 69, 80, 70, 76] : List UInt8).foldl
          (fun c byte => CalculateRemainderFromTable byte c) CRC_INITIAL))
      = crcOver ([ty, 69, 80, 70, 76] ++ ws)
    unfold crcOver HEADER_SIZE
    rw [Nat.add_sub_cancel_left 5 ws.length, List.foldl_append]
    exact congrArg FinalizeCRC (foldl_crc_range ws [ty, 69, 80, 70, 76] _)
  have hfin := finalizeDatagram_eq (writeN (mkBuilder payloadSize ty true) ws)
    (crcOver ([ty, 69, 80, 70, 76] ++ ws)) hcrc1
    (by rw [hb1]
        show 5 + ws.length + 1 ≤ payloadSize + TOTAL_DATAGRAM_OVERHEAD
        unfold TOTAL_DATAGRAM_OVERHEAD
        omega)
    (by rw [hb1]
        show 5 + ws.length + 1 + 1 ≤ payloadSize + TOTAL_DATAGRAM_OVERHEAD
        unfold TOTAL_DATAGRAM_OVERHEAD
        omega)
  rw [hfin, hb1]
  have htake : ((([ty, 69, 80, 70, 76] ++ ws)
        ++ [UInt8.ofNat ((crcOver ([ty, 69, 80, 70, 76] ++ ws)) >>> 8)])
        ++ [UInt8.ofNat (crcOver ([ty, 69, 80, 70, 76] ++ ws))]).take
      (payloadSize + TOTAL_DATAGRAM_OVERHEAD - 2)
      = [ty, 69, 80, 70, 76] ++ ws := by
    rw [List.append_assoc, List.take_left']
    unfold TOTAL_DATAGRAM_OVERHEAD
    simp
    omega
  have hdrop : ((([ty, 69, 80, 70, 76] ++ ws)
        ++ [UInt8.ofNat ((crcOver ([ty, 69, 80, 70, 76] ++ ws)) >>> 8)])
        ++ [UInt8.ofNat (crcOver ([ty, 69, 80, 70, 76] ++ ws))]).drop
      (payloadSize + TOTAL_DATAGRAM_OVERHEAD - 2)
      = [UInt8.ofNat ((crcOver ([ty, 69, 80, 70, 76] ++ ws)) >>> 8),
         UInt8.ofNat (crcOver ([ty, 69, 80, 70, 76] ++ ws))] := by
    rw [List.append_assoc, List.drop_left']
    · rfl
    · unfold TOTAL_DATAGRAM_OVERHEAD
      simp
      omega
  refine ⟨?_, ?_, ?_, rfl, rfl⟩
  · show ((([ty, 69, 80, 70, 76] ++ ws)
        ++ [UInt8.ofNat ((crcOver ([ty, 69, 80, 70, 76] ++ ws)) >>> 8)])
        ++ [UInt8.ofNat (crcOver ([ty, 69, 80, 70, 76] ++ ws))]).length
      = payloadSize + TOTAL_DATAGRAM_OVERHEAD
    unfold TOTAL_DATAGRAM_OVERHEAD
    simp
    omega
  · show ((([ty, 69, 80, 70, 76] ++ ws)
        ++ [UInt8.ofNat ((crcOver ([ty, 69, 80, 70, 76] ++ ws)) >>> 8)])
        ++ [UInt8.ofNat (crcOver ([ty, 69, 80, 70, 76] ++ ws))]).take 5
      = [ty, 69, 80, 70, 76]
    rw [List.append_assoc, List.append_assoc,
      List.take_left' (by simp : (([ty, 69, 80, 70, 76] : List UInt8)).length = 5)]
  · show ((([ty, 69, 80, 70, 76] ++ ws)
        ++ [UInt8.ofNat ((crcOver ([ty, 69, 80, 70, 76] ++ ws)) >>> 8)])
        ++ [UInt8.ofNat (crcOver ([ty, 69, 80, 70, 76] ++ ws))]).drop
        (payloadSize + TOTAL_DATAGRAM_OVERHEAD - 2)
      = _
    rw [htake, hdrop]

/-- Witness for C7: a three-byte payload [1, 2, 3] with type tag 9 yields a
ten-byte frame headed by the tag and marker whose trailer is the CRC of its
first eight bytes. -/
theorem C7_frame_layout_witness :
    (finalizeDatagram (writeN (mkBuilder 3 9 true) [1, 2, 3])).2.bytes.length
        = 3 + TOTAL_DATAGRAM_OVERHEAD
  ∧ (finalizeDatagram (writeN (mkBuilder 3 9 true) [1, 2, 3])).2.bytes.take 5
        = [9, 69, 80, 70, 76]
  ∧ (finalizeDatagram (writeN (mkBuilder 3 9 true) [1, 2, 3])).2.bytes.drop
        (3 + TOTAL_DATAGRAM_OVERHEAD - 2)
      = [UInt8.ofNat ((crcOver
            ((finalizeDatagram (writeN (mkBuilder 3 9 true) [1, 2, 3])).2.bytes.take
              (3 + TOTAL_DATAGRAM_OVERHEAD - 2))) >>> 8),
         UInt8.ofNat (crcOver
            ((finalizeDatagram (writeN (mkBuilder 3 9 true) [1, 2, 3])).2.bytes.take
              (3 + TOTAL_DATAGRAM_OVERHEAD - 2)))]
  ∧ (finalizeDatagram (writeN (mkBuilder 3 9 true) [1, 2, 3])).1.size
        = 3 + TOTAL_DATAGRAM_OVERHEAD
  ∧ (finalizeDatagram (writeN (mkBuilder 3 9 true) [1, 2, 3])).1.ptrValid = true :=
  C7_frame_layout 3 9 [1, 2, 3] rfl (by decide)
